import Mathlib

/-!
Verification development for the numeric formatting core of a unified
NumberFormat implementation.  The embedding models JavaScript numbers by exact
rationals (`ℚ`) together with an explicit negative-zero flag, strings by
`List Char`, and thrown exceptions by `Except`.  Each definition is a direct
transcription of the corresponding source function; the locale data record and
the plural selector are modelled as opaque inputs, and pattern templates are
represented in tokenized form (ordered literal/placeholder lists), matching the
regex split performed by the source.
-/

section FormatJSCore

attribute [local semireducible] Rat.mul Rat.add Rat.sub Rat.inv

/-- The rounding computation shared by toRawFixed and toRawPrecision:
`n = (exactSolve - roundDown < roundUp - exactSolve) ? roundDown : roundUp`. -/
def jsRound (exactSolve : ℚ) : ℤ :=
  let roundDown : ℤ := ⌊exactSolve⌋
  let roundUp : ℤ := ⌈exactSolve⌉
  if exactSolve - (roundDown : ℚ) < (roundUp : ℚ) - exactSolve then roundDown else roundUp

/-- Fuelled floor-of-log-base-10 on rationals; the recursion mirrors the exact
mathematical value of `Math.floor(Math.log(x) / Math.log(10))` for positive input. -/
def flog10F : ℕ → ℚ → ℤ
  | 0, _ => 0
  | fuel+1, q =>
    if q < 1 then flog10F fuel (q * 10) - 1
    else if q < 10 then 0
    else flog10F fuel (q / 10) + 1

/-- `floor (log10 q)` for positive rational `q` (the fuel bound is always sufficient). -/
def floorLog10 (q : ℚ) : ℤ := flog10F (q.num.natAbs + q.den) q

structure RawNumberFormatResult where
  formattedString : List Char
  roundedNumber : ℚ
  integerDigitsCount : ℤ
deriving DecidableEq

/-- The trailing-zero trimming loop
`while (cut > 0 && endsWith(m, '0')) { m = m.slice(0, -1); cut--; }`. -/
def cutTrailingZeros : List Char → ℕ → List Char
  | m, 0 => m
  | m, cut+1 => if m.getLast? = some '0' then cutTrailingZeros m.dropLast cut else m

/-- Transcription of `toRawFixed(x, minFraction, maxFraction)` from the source
(including its `roundedNumber = x / 10^f` computation). -/
def toRawFixed (x : ℚ) (minFraction maxFraction : ℕ) : RawNumberFormatResult :=
  let f := maxFraction
  let n : ℤ := jsRound (x * (10 : ℚ) ^ f)
  let xFinal : ℚ := x / (10 : ℚ) ^ f
  let m0 : List Char := Nat.toDigits 10 n.toNat
  let withPoint : List Char × ℤ :=
    if f ≠ 0 then
      let k := m0.length
      let mk : List Char × ℕ :=
        if k ≤ f then (List.replicate (f + 1 - k) '0' ++ m0, f + 1) else (m0, k)
      let a := mk.1.take (mk.2 - f)
      let b := mk.1.drop (mk.2 - f)
      (a ++ '.' :: b, (a.length : ℤ))
    else (m0, (m0.length : ℤ))
  let m1 := cutTrailingZeros withPoint.1 (maxFraction - minFraction)
  let m2 := if m1.getLast? = some '.' then m1.dropLast else m1
  { formattedString := m2, roundedNumber := xFinal, integerDigitsCount := withPoint.2 }

/-- Transcription of `toRawPrecision(x, minPrecision, maxPrecision)` from the source. -/
def toRawPrecision (x : ℚ) (minPrecision maxPrecision : ℕ) : RawNumberFormatResult :=
  let p := maxPrecision
  let mex : List Char × ℤ × ℚ :=
    if x = 0 then
      (List.replicate p '0', 0, 0)
    else
      let e : ℤ := floorLog10 x
      let n : ℤ := jsRound (x / (10 : ℚ) ^ (e - (p : ℤ) + 1))
      (Nat.toDigits 10 n.toNat, e, (n : ℚ) * (10 : ℚ) ^ (e - (p : ℤ) + 1))
  let m := mex.1
  let e := mex.2.1
  let xFinal := mex.2.2
  let mi : List Char × ℤ :=
    if e ≥ (p : ℤ) - 1 then
      (m ++ List.replicate (e - (p : ℤ) + 1).toNat '0', e + 1)
    else if e ≥ 0 then
      (m.take (e + 1).toNat ++ '.' :: m.drop (e + 1).toNat, e + 1)
    else
      ('0' :: '.' :: (List.replicate (-e - 1).toNat '0' ++ m), 1)
  let m2 := mi.1
  let m3 :=
    if '.' ∈ m2 ∧ minPrecision < maxPrecision then
      let mcut := cutTrailingZeros m2 (maxPrecision - minPrecision)
      if mcut.getLast? = some '.' then mcut.dropLast else mcut
    else m2
  { formattedString := m3, roundedNumber := xFinal, integerDigitsCount := mi.2 }

inductive NStyle
  | decimal
  | percent
  | currency
  | unit
deriving DecidableEq

inductive NotationKind
  | standard
  | scientific
  | engineering
  | compact
deriving DecidableEq

inductive SignDisplayKind
  | auto
  | always
  | never
  | exceptZero
deriving DecidableEq

inductive CompactDisplayKind
  | short
  | long
deriving DecidableEq

inductive RoundingType
  | significantDigits
  | fractionDigits
  | compactRounding
deriving DecidableEq

/-- The notation-display category used as a key into the pattern table. -/
inductive DisplayKind
  | standard
  | scientific
  | compactShort
  | compactLong
deriving DecidableEq

inductive SignClass
  | positivePattern
  | zeroPattern
  | negativePattern
deriving DecidableEq

inductive PartType
  | literal
  | integer
  | group
  | decimal
  | fraction
  | plusSign
  | minusSign
  | percentSign
  | nan
  | infinity
  | exponentSeparator
  | exponentMinusSign
  | exponentInteger
  | unit
deriving DecidableEq

structure FormatPart where
  type : PartType
  value : List Char
deriving DecidableEq

/-- The internal-slot token enumeration for pattern placeholders. -/
inductive SlotToken
  | number
  | plusSign
  | minusSign
  | percentSign
  | compactSymbol
  | compactName
  | scientificSeparator
  | scientificExponent
  | unitSymbol
  | unitNarrowSymbol
  | unitName
  | currencyCode
  | currencySymbol
  | currencyNarrowSymbol
  | currencyName
deriving DecidableEq

/-- A pattern template in tokenized form: the source splits the template string
on brace-delimited placeholders, yielding exactly such a literal/placeholder list. -/
inductive PatternToken
  | literal (s : List Char)
  | placeholder (t : SlotToken)
deriving DecidableEq

/-- The only failure signalled inside the modelled core (`throw Error('not implemented')`). -/
inductive FormatError
  | notImplemented
deriving DecidableEq

/-- A finite JavaScript number: an exact rational value plus a negative-zero flag
(the flag is only ever set together with value 0). -/
structure JSFin where
  val : ℚ
  negZero : Bool
deriving DecidableEq

/-- A JavaScript number as consumed by formatToParts. -/
inductive JSNumber
  | nan
  | posInf
  | negInf
  | fin (val : ℚ) (negZero : Bool)
deriving DecidableEq

/-- The resolved formatter configuration (internal slots after construction). -/
structure FormatterConfig where
  style : NStyle
  notationType : NotationKind
  signDisplay : SignDisplayKind
  compactDisplay : CompactDisplayKind
  roundingType : RoundingType
  minimumIntegerDigits : ℕ
  minimumFractionDigits : ℕ
  maximumFractionDigits : ℕ
  minimumSignificantDigits : ℕ
  maximumSignificantDigits : ℕ
  useGrouping : Bool
deriving DecidableEq

/-- Locale data consumed by the core: symbols, the pattern table keyed by
style, sign-display, notation category and sign class, and the pluralized
unit/currency name lookups (with the external plural selector collapsed to its
`one`-versus-other Boolean as the source does). The numbering-system digit
table is modelled as absent (the replacement branch is then a no-op). -/
structure LocaleData where
  nanSym : List Char
  infinitySym : List Char
  decimalSym : List Char
  groupSym : List Char
  plusSignSym : List Char
  minusSignSym : List Char
  percentSignSym : List Char
  exponentialSym : List Char
  patterns : NStyle → SignDisplayKind → DisplayKind → SignClass → List PatternToken
  unitNames : SlotToken → Bool → List Char
  currencyNames : SlotToken → Bool → List Char
  pluralIsOne : JSNumber → Bool

structure FormatNumberResult where
  roundedNumber : JSFin
  formattedString : List Char
deriving DecidableEq

/-- Transcription of `formatNumberToString(numberFormat, x)` (negative-zero
detection via `x < 0 || 1/x === -Infinity`, rounding-type dispatch, compact
fallback, and minimum-integer-digit zero padding). -/
def formatNumberToString (cfg : FormatterConfig) (x : JSFin) : FormatNumberResult :=
  let isNegative : Bool := decide (x.val < 0) || x.negZero
  let x1 : ℚ := if isNegative then -x.val else x.val
  let result : RawNumberFormatResult :=
    match cfg.roundingType with
    | .significantDigits =>
        toRawPrecision x1 cfg.minimumSignificantDigits cfg.maximumSignificantDigits
    | .fractionDigits =>
        toRawFixed x1 cfg.minimumFractionDigits cfg.maximumFractionDigits
    | .compactRounding =>
        let r := toRawFixed x1 0 0
        if r.integerDigitsCount = 1 then toRawPrecision x1 1 2 else r
  let str : List Char :=
    if result.integerDigitsCount < (cfg.minimumIntegerDigits : ℤ) then
      List.replicate ((cfg.minimumIntegerDigits : ℤ) - result.integerDigitsCount).toNat '0'
        ++ result.formattedString
    else result.formattedString
  let xFinal : JSFin :=
    if isNegative then ⟨-result.roundedNumber, decide (result.roundedNumber = 0)⟩
    else ⟨result.roundedNumber, false⟩
  { roundedNumber := xFinal, formattedString := str }

/-- Transcription of `computeExponentForMagnitude(numberFormat, magnitude)`. -/
def computeExponentForMagnitude (cfg : FormatterConfig) (magnitude : ℤ) :
    Except FormatError ℤ :=
  match cfg.notationType with
  | .standard => .ok 0
  | .scientific => .ok magnitude
  | .engineering => .ok (magnitude.fdiv 3 * 3)
  | .compact => .error .notImplemented

/-- Transcription of `computeExponent(numberFormat, x)`. Note that the source
computes `newMagnitude` from the scaled but not-yet-rounded `x`. -/
def computeExponent (cfg : FormatterConfig) (x : JSFin) : Except FormatError ℤ :=
  if x.val = 0 then .ok 0
  else
    let xa : ℚ := if x.val < 0 then -x.val else x.val
    let magnitude : ℤ := floorLog10 xa
    match computeExponentForMagnitude cfg magnitude with
    | .error e => .error e
    | .ok exponent =>
        let scaled : ℚ := xa * (10 : ℚ) ^ (-exponent)
        let fr := formatNumberToString cfg ⟨scaled, false⟩
        if fr.roundedNumber.val = 0 then .ok exponent
        else if floorLog10 scaled = magnitude - exponent then .ok exponent
        else computeExponentForMagnitude cfg (magnitude + 1)

/-- The sign-class computation of getNumberFormatPattern:
`!isNaN(x) && (x < 0 || 1/x === -Infinity)` selects negative; `x === 0` zero;
otherwise positive (case-split over the JSNumber representation). -/
def signClassOf : JSNumber → SignClass
  | .nan => .positivePattern
  | .posInf => .positivePattern
  | .negInf => .negativePattern
  | .fin v nz =>
      if v < 0 ∨ (v = 0 ∧ nz = true) then .negativePattern
      else if v = 0 then .zeroPattern
      else .positivePattern

/-- Transcription of `getNumberFormatPattern(numberFormat, x, exponent)`:
currency style throws `not implemented`; otherwise selects
`patterns[signDisplay][displayNotation][sign]`. -/
def getNumberFormatPattern (cfg : FormatterConfig) (ld : LocaleData) (x : JSNumber)
    (exponent : ℤ) : Except FormatError (List PatternToken) :=
  match cfg.style with
  | .currency => .error .notImplemented
  | st =>
      let dk : DisplayKind :=
        if cfg.notationType = .scientific ∨ cfg.notationType = .engineering then .scientific
        else if exponent ≠ 0 then
          if cfg.compactDisplay = .short then .compactShort else .compactLong
        else .standard
      .ok (ld.patterns st cfg.signDisplay dk (signClassOf x))

/-- The grouping loop of the `{number}` token:
`for (i = n.length - 3; i > 0; i -= 3) groups.push(n.slice(i, i + 3))`
(fuelled; the fuel is always sufficient). Returns the pushed groups and the
final loop index. -/
def groupLoopF (n : List Char) : ℕ → ℤ → List (List Char) → List (List Char) × ℤ
  | 0, i, acc => (acc, i)
  | fuel+1, i, acc =>
      if i > 0 then groupLoopF n fuel (i - 3) (acc ++ [(n.drop i.toNat).take 3])
      else (acc, i)

/-- The emission loop that pops collected groups from the end, emitting
`integer` parts separated by `group` parts (input given in pop order). -/
def emitGroups (sep : List Char) : List (List Char) → List FormatPart
  | [] => []
  | [g] => [⟨.integer, g⟩]
  | g :: rest => ⟨.integer, g⟩ :: ⟨.group, sep⟩ :: emitGroups sep rest

/-- Resolution of the `{number}` placeholder: NaN/Infinity short-circuit,
integer/fraction split at the decimal separator (only when its index is
positive), grouping of the whole digit string `n` when enabled (as the source
does), and decimal/fraction part emission. -/
def resolveNumberToken (cfg : FormatterConfig) (ld : LocaleData) (num : JSNumber)
    (n : List Char) : List FormatPart :=
  match num with
  | .nan => [⟨.nan, n⟩]
  | .posInf => [⟨.infinity, n⟩]
  | .negInf => [⟨.infinity, n⟩]
  | .fin _ _ =>
      let ifr : List Char × Option (List Char) :=
        match n.findIdx? (fun c => c = '.') with
        | some i => if 0 < i then (n.take i, some (n.drop (i + 1))) else (n, none)
        | none => (n, none)
      let numberParts : List FormatPart :=
        if cfg.useGrouping then
          let r := groupLoopF n (n.length + 1) ((n.length : ℤ) - 3) []
          let groups := r.1 ++ [n.take (r.2 + 3).toNat]
          emitGroups ld.groupSym groups.reverse
        else [⟨.integer, ifr.1⟩]
      let fractionParts : List FormatPart :=
        match ifr.2 with
        | some fr => [⟨.decimal, ld.decimalSym⟩, ⟨.fraction, fr⟩]
        | none => []
      numberParts ++ fractionParts

/-- Resolution of a single placeholder token, threading the mutable `exponent`
variable (negated by `{scientificExponent}` when negative). -/
def resolveToken (cfg : FormatterConfig) (ld : LocaleData) (num : JSNumber)
    (n : List Char) (expo : ℤ) : SlotToken → Except FormatError (List FormatPart × ℤ)
  | .number => .ok (resolveNumberToken cfg ld num n, expo)
  | .plusSign => .ok ([⟨.plusSign, ld.plusSignSym⟩], expo)
  | .minusSign => .ok ([⟨.minusSign, ld.minusSignSym⟩], expo)
  | .compactSymbol => .error .notImplemented
  | .compactName => .error .notImplemented
  | .scientificSeparator => .ok ([⟨.exponentSeparator, ld.exponentialSym⟩], expo)
  | .scientificExponent =>
      if expo < 0 then
        .ok ([⟨.exponentMinusSign, ld.minusSignSym⟩,
              ⟨.exponentInteger, (toRawFixed ((-expo : ℤ) : ℚ) 0 0).formattedString⟩], -expo)
      else
        .ok ([⟨.exponentInteger, (toRawFixed ((expo : ℤ) : ℚ) 0 0).formattedString⟩], expo)
  | .percentSign => .ok ([⟨.percentSign, ld.percentSignSym⟩], expo)
  | .unitSymbol =>
      .ok ((if cfg.style = .unit then [⟨.unit, ld.unitNames .unitSymbol (ld.pluralIsOne num)⟩]
            else []), expo)
  | .unitNarrowSymbol =>
      .ok ((if cfg.style = .unit then
              [⟨.unit, ld.unitNames .unitNarrowSymbol (ld.pluralIsOne num)⟩]
            else []), expo)
  | .unitName =>
      .ok ((if cfg.style = .unit then [⟨.unit, ld.unitNames .unitName (ld.pluralIsOne num)⟩]
            else []), expo)
  | .currencyCode =>
      .ok ((if cfg.style = .currency then
              [⟨.unit, ld.currencyNames .currencyCode (ld.pluralIsOne num)⟩]
            else []), expo)
  | .currencySymbol =>
      .ok ((if cfg.style = .currency then
              [⟨.unit, ld.currencyNames .currencySymbol (ld.pluralIsOne num)⟩]
            else []), expo)
  | .currencyNarrowSymbol =>
      .ok ((if cfg.style = .currency then
              [⟨.unit, ld.currencyNames .currencyNarrowSymbol (ld.pluralIsOne num)⟩]
            else []), expo)
  | .currencyName =>
      .ok ((if cfg.style = .currency then
              [⟨.unit, ld.currencyNames .currencyName (ld.pluralIsOne num)⟩]
            else []), expo)

/-- The pattern-walking loop of formatToParts: literal runs become `literal`
parts, placeholders are resolved; a thrown error aborts the whole walk with no
partial result. -/
def assembleParts (cfg : FormatterConfig) (ld : LocaleData) (num : JSNumber)
    (n : List Char) : List PatternToken → ℤ → Except FormatError (List FormatPart)
  | [], _ => .ok []
  | .literal s :: rest, expo =>
      match assembleParts cfg ld num n rest expo with
      | .error e => .error e
      | .ok tail => .ok (⟨.literal, s⟩ :: tail)
  | .placeholder t :: rest, expo =>
      match resolveToken cfg ld num n expo t with
      | .error e => .error e
      | .ok pe =>
          match assembleParts cfg ld num n rest pe.2 with
          | .error e => .error e
          | .ok tail => .ok (pe.1 ++ tail)

/-- The tail of formatToParts shared by all input classes: pattern selection
followed by the pattern walk. -/
def afterRound (cfg : FormatterConfig) (ld : LocaleData) (n : List Char)
    (num : JSNumber) (exponent : ℤ) : Except FormatError (List FormatPart) :=
  match getNumberFormatPattern cfg ld num exponent with
  | .error e => .error e
  | .ok pattern => assembleParts cfg ld num n pattern exponent

/-- The finite-input path of formatToParts after percent scaling: exponent
computation, power-of-ten scaling, rounding to a string, then pattern
selection and assembly. -/
def formatFinite (cfg : FormatterConfig) (ld : LocaleData) (v1 : ℚ) (nz : Bool) :
    Except FormatError (List FormatPart) :=
  match computeExponent cfg ⟨v1, nz⟩ with
  | .error e => .error e
  | .ok exponent =>
      let scaled : JSFin := ⟨v1 * (10 : ℚ) ^ (-exponent), nz⟩
      let fr := formatNumberToString cfg scaled
      afterRound cfg ld fr.formattedString
        (.fin fr.roundedNumber.val fr.roundedNumber.negZero) exponent

/-- Transcription of `formatToParts(num)`: NaN/Infinity use the locale
literals; a finite input is percent-scaled, exponent-scaled, rounded to a
string, and the result is assembled from the selected pattern. -/
def formatToParts (cfg : FormatterConfig) (ld : LocaleData) :
    JSNumber → Except FormatError (List FormatPart)
  | .nan => afterRound cfg ld ld.nanSym .nan 0
  | .posInf => afterRound cfg ld ld.infinitySym .posInf 0
  | .negInf => afterRound cfg ld ld.infinitySym .negInf 0
  | .fin v nz => formatFinite cfg ld (if cfg.style = .percent then v * 100 else v) nz

/-- Count of significant digits of a digit string: all digit characters after
dropping the decimal point and the leading zeros. -/
def significantDigits (l : List Char) : ℕ :=
  ((l.filter fun c => c != '.').dropWhile fun c => c == '0').length

/-- A test locale with ASCII symbols; scientific patterns consist of the
number, the exponent separator and the exponent, all other categories are just
the number placeholder. -/
def plainLD : LocaleData :=
  { nanSym := ['N', 'a', 'N']
    infinitySym := ['I', 'n', 'f']
    decimalSym := ['.']
    groupSym := [',']
    plusSignSym := ['+']
    minusSignSym := ['-']
    percentSignSym := ['%']
    exponentialSym := ['E']
    patterns := fun _ _ dk _ =>
      match dk with
      | .scientific =>
          [.placeholder .number, .placeholder .scientificSeparator,
           .placeholder .scientificExponent]
      | _ => [.placeholder .number]
    unitNames := fun _ _ => ['u']
    currencyNames := fun _ _ => ['c']
    pluralIsOne := fun _ => false }

/-- A test locale whose pattern table marks the selected sign class with a
distinct leading literal (p/z/n), making the sign-class dispatch observable. -/
def taggedLD : LocaleData :=
  { plainLD with
    patterns := fun _ _ _ sc =>
      (match sc with
       | .positivePattern => PatternToken.literal ['p']
       | .zeroPattern => PatternToken.literal ['z']
       | .negativePattern => PatternToken.literal ['n']) :: [.placeholder .number] }

/-- Resolved configuration for plain decimal formatting with default digit
options (fraction digits 0..3, grouping on). -/
def baseCfg : FormatterConfig :=
  { style := .decimal
    notationType := .standard
    signDisplay := .auto
    compactDisplay := .short
    roundingType := .fractionDigits
    minimumIntegerDigits := 1
    minimumFractionDigits := 0
    maximumFractionDigits := 3
    minimumSignificantDigits := 1
    maximumSignificantDigits := 21
    useGrouping := true }

/-- Scientific notation with 0 fraction digits. -/
def sciCfg : FormatterConfig :=
  { baseCfg with
    notationType := .scientific
    maximumFractionDigits := 0
    useGrouping := false }

/-- signDisplay "always" with 0 fraction digits (no grouping). -/
def alwaysCfg : FormatterConfig :=
  { baseCfg with
    signDisplay := .always
    maximumFractionDigits := 0
    useGrouping := false }

/-- Compact notation with the compactRounding rounding type (the resolved
slots when no digit options are given). -/
def compactCfg : FormatterConfig :=
  { baseCfg with
    notationType := .compact
    roundingType := .compactRounding }

/-- Currency style (standard notation). -/
def currencyCfg : FormatterConfig :=
  { baseCfg with style := .currency }

/-- minimumSignificantDigits = maximumSignificantDigits = 3 with
minimumIntegerDigits = 4. -/
def sig33Cfg : FormatterConfig :=
  { baseCfg with
    roundingType := .significantDigits
    minimumSignificantDigits := 3
    maximumSignificantDigits := 3
    minimumIntegerDigits := 4
    useGrouping := false }

/-- The source's branch rounding agrees with round-half-up (`round` in Mathlib). -/
theorem jsRound_eq_round (q : ℚ) : jsRound q = round q := by
  show (if q - ((⌊q⌋ : ℤ) : ℚ) < ((⌈q⌉ : ℤ) : ℚ) - q then ⌊q⌋ else ⌈q⌉) = round q
  rw [round]
  rcases Int.fract_eq_zero_or_add_one_sub_ceil q with h0 | hc
  · have hfl : q - ((⌊q⌋ : ℤ) : ℚ) = 0 := by
      have hs := Int.self_sub_floor q
      rw [hs, h0]
    have hq : q = ((⌊q⌋ : ℤ) : ℚ) := by linarith
    have hce : (⌈q⌉ : ℤ) = ⌊q⌋ := by
      rw [hq, Int.ceil_intCast, Int.floor_intCast]
    rw [hfl, h0, hce]
    norm_num
  · have h1 : q - ((⌊q⌋ : ℤ) : ℚ) = Int.fract q := Int.self_sub_floor q
    have h2 : ((⌈q⌉ : ℤ) : ℚ) - q = 1 - Int.fract q := by
      rw [hc]; ring
    rw [h1, h2]
    have hiff : (Int.fract q < 1 - Int.fract q) ↔ (2 * Int.fract q < 1) := by
      constructor <;> intro h <;> linarith
    rw [if_congr hiff rfl rfl]

/-- Trimming trailing zeros from `"0." ++ k zeros` removes `min cut k` zeros
and never eats into the `"0."` prefix. -/
theorem cutTrailingZeros_zero_dot (c : ℕ) : ∀ k : ℕ,
    cutTrailingZeros ('0' :: '.' :: List.replicate k '0') c
      = '0' :: '.' :: List.replicate (k - c) '0' := by
  induction c with
  | zero => intro k; simp [cutTrailingZeros]
  | succ c ih =>
      intro k
      cases k with
      | zero => simp [cutTrailingZeros]
      | succ j =>
          have hsplit : '0' :: '.' :: List.replicate (j + 1) '0'
              = ('0' :: '.' :: List.replicate j '0') ++ ['0'] := by
            rw [List.replicate_succ']
            simp
          rw [hsplit, cutTrailingZeros]
          rw [List.getLast?_concat, List.dropLast_concat]
          rw [ih j]
          simp only [if_true]
          have hjc : j + 1 - (c + 1) = j - c := by omega
          rw [hjc]

/-- C1: (code bug) toRawFixed is specified to return the rescaled rounded value
n / 10^maxFraction as its roundedNumber, agreeing with the digit string; the
source instead computes x / 10^maxFraction from the unrounded input.  At
x = 3/2 with maxFraction = 0 the digit string is "2" (n = 2) while the returned
roundedNumber is 3/2, not 2. -/
theorem C1_toRawFixed_roundedNumber_unrescaled :
    (toRawFixed (3/2 : ℚ) 0 0).formattedString = ['2']
    ∧ (toRawFixed (3/2 : ℚ) 0 0).roundedNumber = 3/2
    ∧ (toRawFixed (3/2 : ℚ) 0 0).roundedNumber ≠ 2 :=
  ⟨by decide, by decide, by decide⟩

/-- C2: (code bug) computeExponent recomputes the magnitude from the scaled but
not-yet-rounded value, so the magnitude-crossing bump can never fire: under
scientific notation with 0 fraction digits, x = 999.5 yields exponent 2 with
mantissa digit string "10", not the exponent 3 with mantissa "1" that the
specification describes. -/
theorem C2_computeExponent_bump_never_fires :
    computeExponent sciCfg ⟨1999/2, false⟩ = .ok 2
    ∧ formatToParts sciCfg plainLD (.fin (1999/2) false) =
        .ok [⟨.integer, ['1', '0']⟩, ⟨.exponentSeparator, ['E']⟩,
             ⟨.exponentInteger, ['2']⟩] :=
  ⟨rfl, rfl⟩

/-- C3: (code bug) grouping partitions the whole formatted string rather than
only the integer digits: 1234567 does produce the claimed parts, but 1234.5
(grouping enabled, decimal defaults) is split into integer parts "123" and
"4.5" — the decimal point and the fraction digit end up inside an integer
group — before the decimal and fraction parts are emitted. -/
theorem C3_grouping_splits_full_string :
    formatToParts baseCfg plainLD (.fin 1234567 false) =
      .ok [⟨.integer, ['1']⟩, ⟨.group, [',']⟩, ⟨.integer, ['2', '3', '4']⟩,
           ⟨.group, [',']⟩, ⟨.integer, ['5', '6', '7']⟩]
    ∧ formatToParts baseCfg plainLD (.fin (2469/2) false) =
      .ok [⟨.integer, ['1', '2', '3']⟩, ⟨.group, [',']⟩, ⟨.integer, ['4', '.', '5']⟩,
           ⟨.decimal, ['.']⟩, ⟨.fraction, ['5']⟩] :=
  ⟨rfl, rfl⟩

/-- C4: (code bug) with signDisplay "always" and 0 fraction digits, an input of
0 selects the zero pattern and -0 the negative pattern as claimed, but an input
of 0.4 — whose magnitude rounds to the digit string "0" — selects the positive
pattern, because the roundedNumber used for sign dispatch is the unrounded
x / 10^maxFraction (the toRawFixed slip of C1), not the rounded 0. -/
theorem C4_sign_class_dispatch :
    (formatNumberToString alwaysCfg ⟨2/5, false⟩).formattedString = ['0']
    ∧ formatToParts alwaysCfg taggedLD (.fin (2/5) false) =
        .ok [⟨.literal, ['p']⟩, ⟨.integer, ['0']⟩]
    ∧ formatToParts alwaysCfg taggedLD (.fin 0 false) =
        .ok [⟨.literal, ['z']⟩, ⟨.integer, ['0']⟩]
    ∧ formatToParts alwaysCfg taggedLD (.fin 0 true) =
        .ok [⟨.literal, ['n']⟩, ⟨.integer, ['0']⟩] :=
  ⟨rfl, rfl, rfl, rfl⟩

/-- C5 counterexample: at x = 0, minPrecision = 1, maxPrecision = 2 the
returned string is "0" — a single zero digit — not a string of maxPrecision
(two) zero digits as claimed. -/
theorem C5_counterexample_zero_string :
    (toRawPrecision (0 : ℚ) 1 2).formattedString = ['0']
    ∧ (toRawPrecision (0 : ℚ) 1 2).formattedString ≠ List.replicate 2 '0' :=
  ⟨by decide, by decide⟩

/-- C5 (amended): for x = 0 and 1 ≤ minPrecision ≤ maxPrecision, toRawPrecision
returns roundedNumber 0, integer-digit count 1, and a formatted string holding
exactly minPrecision zero digits — "0" when minPrecision = 1, otherwise "0."
followed by minPrecision - 1 zeros (the maxPrecision zeros are trimmed back
down to minPrecision significant digits). -/
theorem C5_toRawPrecision_zero (minP maxP : ℕ) (h1 : 1 ≤ minP) (h2 : minP ≤ maxP) :
    (toRawPrecision 0 minP maxP).roundedNumber = 0
    ∧ (toRawPrecision 0 minP maxP).integerDigitsCount = 1
    ∧ (toRawPrecision 0 minP maxP).formattedString =
        (if minP = 1 then ['0'] else '0' :: '.' :: List.replicate (minP - 1) '0') := by
  rcases Nat.lt_or_ge maxP 2 with hp | hp
  · have hmax : maxP = 1 := by omega
    have hmin : minP = 1 := by omega
    subst hmax; subst hmin
    exact ⟨by decide, by decide, by decide⟩
  · have hne : ¬ ((0:ℤ) ≥ (maxP:ℤ) - 1) := by omega
    simp only [toRawPrecision, if_pos rfl, hne, if_false, ge_iff_le, le_refl, if_true]
    have hm2 : List.take ((0:ℤ) + 1).toNat (List.replicate maxP '0') ++
        '.' :: List.drop ((0:ℤ) + 1).toNat (List.replicate maxP '0')
        = '0' :: '.' :: List.replicate (maxP - 1) '0' := by
      have ht : ((0:ℤ) + 1).toNat = 1 := by decide
      rw [ht, List.take_replicate, List.drop_replicate]
      have hmin : min 1 maxP = 1 := by omega
      rw [hmin]
      rfl
    rw [hm2]
    refine ⟨trivial, by norm_num, ?_⟩
    rcases Nat.lt_or_ge minP maxP with hlt | hge
    · have hcond : ('.' ∈ '0' :: '.' :: List.replicate (maxP - 1) '0' ∧ minP < maxP) :=
        ⟨by simp, hlt⟩
      rw [if_pos hcond, cutTrailingZeros_zero_dot]
      have hsub : maxP - 1 - (maxP - minP) = minP - 1 := by omega
      rw [hsub]
      by_cases hm1 : minP = 1
      · subst hm1
        simp
      · have hm1' : minP - 1 = (minP - 2) + 1 := by omega
        rw [if_neg hm1, hm1', List.replicate_succ']
        have hlast : ('0' :: '.' :: (List.replicate (minP - 2) '0' ++ ['0'])).getLast?
            = some '0' := by
          rw [show '0' :: '.' :: (List.replicate (minP - 2) '0' ++ ['0'])
              = ('0' :: '.' :: List.replicate (minP - 2) '0') ++ ['0'] by simp,
            List.getLast?_concat]
        rw [hlast]
        simp
    · have heq : minP = maxP := by omega
      subst heq
      have hc : ¬ ('.' ∈ '0' :: '.' :: List.replicate (minP - 1) '0' ∧ minP < minP) := by
        rintro ⟨-, h⟩
        exact lt_irrefl _ h
      rw [if_neg hc, if_neg (by omega : ¬ minP = 1)]

/-- C5 witness: the amended statement instantiated at minPrecision = 2,
maxPrecision = 4. -/
theorem C5_toRawPrecision_zero_witness :
    (toRawPrecision 0 2 4).roundedNumber = 0
    ∧ (toRawPrecision 0 2 4).integerDigitsCount = 1
    ∧ (toRawPrecision 0 2 4).formattedString =
        (if 2 = 1 then ['0'] else '0' :: '.' :: List.replicate (2 - 1) '0') :=
  C5_toRawPrecision_zero 2 4 (by decide) (by decide)

/-- C6: the shared rounding of toRawFixed and toRawPrecision rounds an exact
half tie toward the larger integer and otherwise to a nearest integer, and in
particular toRawFixed at 1.005 with maxFraction 2 resolves the scaled tie
100.5 upward to the digit string "1.01" (likewise toRawPrecision at 9.995 with
precision bounds 1 and 3 gives "1.0", the tie 999.5 resolved to 1000). -/
theorem C6_round_half_up_tie :
    (∀ (q : ℚ) (k : ℤ), q = (k : ℚ) + 1/2 → jsRound q = k + 1)
    ∧ (∀ (q : ℚ) (k : ℤ), |q - ((jsRound q : ℤ) : ℚ)| ≤ |q - (k : ℚ)|)
    ∧ (toRawFixed (1005/1000 : ℚ) 0 2).formattedString = ['1', '.', '0', '1']
    ∧ (toRawPrecision (1999/200 : ℚ) 1 3).formattedString = ['1', '.', '0'] := by
  refine ⟨?_, ?_, by decide, by decide⟩
  · intro q k hq
    subst hq
    rw [jsRound_eq_round, round_eq]
    have hcast : ((k : ℚ) + 1/2 + 1/2) = ((k + 1 : ℤ) : ℚ) := by
      push_cast
      ring
    rw [hcast, Int.floor_intCast]
  · intro q k
    rw [jsRound_eq_round]
    exact round_le q k

/-- C6 witness: the tie rule applied at the concrete tie 100.5 and the
nearest-integer bound at 100.5 against 99. -/
theorem C6_round_half_up_tie_witness :
    jsRound (201/2 : ℚ) = 100 + 1
    ∧ |(201/2 : ℚ) - ((jsRound (201/2 : ℚ) : ℤ) : ℚ)| ≤ |(201/2 : ℚ) - ((99 : ℤ) : ℚ)| :=
  ⟨C6_round_half_up_tie.1 (201/2) 100 (by norm_num),
   C6_round_half_up_tie.2.1 (201/2) 99⟩

/-- C7: (code bug) at x = 9.995 with minPrecision = maxPrecision = 3 the scaled
value 999.5 rounds up to n = 1000 = 10^3, which is never renormalized: the
formatted string is "1.000" with four significant digits, exceeding
maxPrecision = 3 (no trimming occurs because minPrecision = maxPrecision). -/
theorem C7_sig_digits_exceed_max :
    (toRawPrecision (1999/200 : ℚ) 3 3).formattedString = ['1', '.', '0', '0', '0']
    ∧ significantDigits (toRawPrecision (1999/200 : ℚ) 3 3).formattedString = 4 :=
  ⟨by decide, by decide⟩

/-- C8 counterexample: formatting the finite input 0 with compact notation
(compactRounding) raises no failure and returns a complete part sequence,
refuting the claim that compact notation signals the failure for every input. -/
theorem C8_counterexample_compact_zero :
    formatToParts compactCfg taggedLD (.fin 0 false) =
      .ok [⟨.literal, ['z']⟩, ⟨.integer, ['0']⟩] := rfl

/-- C8 (amended): currency style signals the not-implemented failure for every
input, and compact notation signals it for every finite nonzero input (zero,
NaN and the infinities instead produce complete part sequences); in the
exception model the error is the whole result, so no partial part list exists. -/
theorem C8_unsupported_features :
    (∀ (cfg : FormatterConfig) (ld : LocaleData) (x : JSNumber),
        cfg.style = NStyle.currency → formatToParts cfg ld x = .error .notImplemented)
    ∧ (∀ (cfg : FormatterConfig) (ld : LocaleData) (v : ℚ) (nz : Bool),
        cfg.notationType = NotationKind.compact → v ≠ 0 →
        formatToParts cfg ld (.fin v nz) = .error .notImplemented) := by
  constructor
  · intro cfg ld x hst
    have haft : ∀ (n : List Char) (num : JSNumber) (expo : ℤ),
        afterRound cfg ld n num expo = .error .notImplemented := by
      intro n num expo
      unfold afterRound getNumberFormatPattern
      rw [hst]
    cases x with
    | nan => exact haft _ _ _
    | posInf => exact haft _ _ _
    | negInf => exact haft _ _ _
    | fin v nz =>
        show formatFinite cfg ld (if cfg.style = NStyle.percent then v * 100 else v) nz
          = .error .notImplemented
        cases hce : computeExponent cfg
            ⟨if cfg.style = NStyle.percent then v * 100 else v, nz⟩ with
        | error e =>
            cases e
            unfold formatFinite
            rw [hce]
        | ok expo =>
            unfold formatFinite
            rw [hce]
            exact haft _ _ _
  · intro cfg ld v nz hnt hv
    have hv1 : ¬ ((⟨if cfg.style = NStyle.percent then v * 100 else v, nz⟩ : JSFin).val = 0) := by
      show ¬ ((if cfg.style = NStyle.percent then v * 100 else v) = 0)
      by_cases h : cfg.style = NStyle.percent
      · rw [if_pos h]
        exact mul_ne_zero hv (by norm_num)
      · rw [if_neg h]
        exact hv
    have hcm : ∀ m : ℤ, computeExponentForMagnitude cfg m = .error .notImplemented := by
      intro m
      unfold computeExponentForMagnitude
      rw [hnt]
    have hce : computeExponent cfg ⟨if cfg.style = NStyle.percent then v * 100 else v, nz⟩
        = .error .notImplemented := by
      unfold computeExponent
      rw [if_neg hv1]
      simp only [hcm]
    show formatFinite cfg ld (if cfg.style = NStyle.percent then v * 100 else v) nz
      = .error .notImplemented
    unfold formatFinite
    rw [hce]

/-- C8 witness: the amended statement applied at the currency configuration
with a NaN input, and at the compact configuration with input 5. -/
theorem C8_unsupported_features_witness :
    formatToParts currencyCfg plainLD JSNumber.nan = .error .notImplemented
    ∧ formatToParts compactCfg plainLD (.fin 5 false) = .error .notImplemented :=
  ⟨C8_unsupported_features.1 currencyCfg plainLD .nan rfl,
   C8_unsupported_features.2 compactCfg plainLD 5 false rfl (by norm_num)⟩

/-- C9: formatting 0 (or -0) with compact notation raises nothing:
computeExponent returns 0 for any zero input under every configuration before
the notation is consulted, the compactRounding mode falls back from
toRawFixed(0,0,0) (integer-digit count 1) to toRawPrecision(0,1,2), and a
complete part sequence is produced through the standard-notation pattern. -/
theorem C9_compact_zero_formats :
    (∀ (cfg : FormatterConfig) (nz : Bool), computeExponent cfg ⟨0, nz⟩ = .ok 0)
    ∧ (toRawFixed (0 : ℚ) 0 0).integerDigitsCount = 1
    ∧ (formatNumberToString compactCfg ⟨0, false⟩).formattedString =
        (toRawPrecision (0 : ℚ) 1 2).formattedString
    ∧ formatToParts compactCfg taggedLD (.fin 0 false) =
        .ok [⟨.literal, ['z']⟩, ⟨.integer, ['0']⟩]
    ∧ formatToParts compactCfg taggedLD (.fin 0 true) =
        .ok [⟨.literal, ['n']⟩, ⟨.integer, ['0']⟩] :=
  ⟨fun _ _ => rfl, by decide, rfl, rfl, rfl⟩

/-- C10: (code bug) at x = 999.5 with minPrecision = maxPrecision = 3 the digit
string is "1000" — four integer digits — while integerDigitsCount is 3; with
minimumIntegerDigits = 4 formatNumberToString pads one zero, producing "01000"
with five integer digits rather than exactly four (the roundedNumber is
unchanged by the padding). -/
theorem C10_min_integer_padding :
    (toRawPrecision (1999/2 : ℚ) 3 3).formattedString = ['1', '0', '0', '0']
    ∧ (toRawPrecision (1999/2 : ℚ) 3 3).integerDigitsCount = 3
    ∧ (formatNumberToString sig33Cfg ⟨1999/2, false⟩).formattedString =
        ['0', '1', '0', '0', '0']
    ∧ (formatNumberToString sig33Cfg ⟨1999/2, false⟩).roundedNumber =
        ⟨(toRawPrecision (1999/2 : ℚ) 3 3).roundedNumber, false⟩ :=
  ⟨by decide, by decide, rfl, rfl⟩

end FormatJSCore
